import Mathlib

/-!
Shallow embedding of `vm_update_tool_server.py`, a FastAPI service that
discovers virtual machines on an ESXi/vCenter server and checks/applies
apt package upgrades on Ubuntu VMs over SSH.

Pure computations (output classification, inventory scanning, command
construction, configuration defaulting) are translated directly from the
Python source.  The two effectful boundaries are made explicit parameters:

* the SSH layer is a value of `SSHOutcome` describing how the paramiko
  calls behaved (connected and produced output, raised
  `AuthenticationException`, raised `FileNotFoundError`, ...);
* the parsed `config.json` document is a value of `Option Json`
  (`none` models a missing/unreadable/invalid-JSON file).

`HTTPException` mirrors `fastapi.HTTPException` (a `status_code` and a
`detail` string); handler functions return `Except HTTPException α`,
where `.error` is a raised exception reaching the HTTP layer.
-/

set_option autoImplicit false

namespace VMTool

/-! ### Python string primitives

The server classifies command output with Python's `in` operator
(substring test), `str.splitlines`, `str.strip` and `"\n".join`.
These are modelled character-list by character-list.
-/

/-- Bool test that `n` is a leading segment of `h` (`h.startswith(n)` shape,
used as the building block of the substring test). -/
def leadsWith : List Char → List Char → Bool
  | [], _ => true
  | _ :: _, [] => false
  | a :: n, b :: h => a == b && leadsWith n h

/-- Python's `n in h` substring operator on character lists:
true iff `n` occurs contiguously inside `h` (always true for empty `n`). -/
def containsSeq (n : List Char) : List Char → Bool
  | [] => n.isEmpty
  | c :: t => leadsWith n (c :: t) || containsSeq n t

/-- Python's `needle in hay` on strings. -/
def pyIn (needle hay : String) : Bool :=
  containsSeq needle.data hay.data

/-- Propositional form of the substring relation: `n` occurs contiguously in `h`. -/
def ContainsSub (n h : List Char) : Prop :=
  ∃ pre post, h = pre ++ n ++ post

/-- Propositional form of Python's `needle in hay`. -/
def PyIn (needle hay : String) : Prop :=
  ContainsSub needle.data hay.data

/-- Python's `str.splitlines` restricted to the line boundaries that occur in
apt output (`\n`, `\r`, `\r\n`); no trailing empty line for a trailing break. -/
def splitlinesChars : List Char → List (List Char)
  | [] => []
  | '\r' :: '\n' :: rest => [] :: splitlinesChars rest
  | '\r' :: rest => [] :: splitlinesChars rest
  | '\n' :: rest => [] :: splitlinesChars rest
  | c :: rest =>
    match splitlinesChars rest with
    | [] => [[c]]
    | l :: ls => (c :: l) :: ls

/-- `s.splitlines()` on strings. -/
def pySplitlines (s : String) : List String :=
  (splitlinesChars s.data).map (fun l => ⟨l⟩)

/-- Characters removed by Python's default `str.strip()` (ASCII whitespace). -/
def pyIsSpace (c : Char) : Bool :=
  c == ' ' || c == '\t' || c == '\n' || c == '\r' || c == '\x0b' || c == '\x0c'

/-- Python's `s.strip()`: drop whitespace from both ends. -/
def pyStrip (s : String) : String :=
  ⟨((s.data.dropWhile pyIsSpace).reverse.dropWhile pyIsSpace).reverse⟩

/-- Python's `"\n".join(lines)`. -/
def pyJoinNL : List String → String
  | [] => ""
  | [l] => l
  | l :: l2 :: ls => l ++ "\n" ++ pyJoinNL (l2 :: ls)

/-! ### Data model -/

/-- Mirror of `fastapi.HTTPException`: the status code and detail string
carried by a raised request failure. -/
structure HTTPException where
  status_code : Nat
  detail : String
deriving DecidableEq, Repr

/-- `vm.summary.guest` of a vSphere VM object: the guest-agent-reported
OS description and (optionally) IP address. -/
structure GuestInfo where
  guestFullName : String
  ipAddress : Option String
deriving DecidableEq, Repr

/-- One virtual machine of the inventory, with the fields the server reads:
`vm.name`, `vm.summary.guest` (absent if the guest agent reported nothing)
and `vm.summary.runtime.powerState`. -/
structure VMRecord where
  name : String
  guest : Option GuestInfo
  powerState : String
deriving DecidableEq, Repr

/-- Request body of the upgrade endpoints (`VMConfig` pydantic model). -/
structure VMConfig where
  ip_address : String
  username : String
  ssh_key_path : String
deriving DecidableEq, Repr

/-- Result of `load_vm_defaults`. -/
structure VMDefaults where
  default_vm_username : String
  default_vm_sudo_password : String
deriving DecidableEq, Repr

/-- Body returned by the upgrade endpoints. -/
structure UpgradeReport where
  status : String
  package_manager : String
  details : String
deriving DecidableEq, Repr

/-- Success body of `/esxi/get_linux_vm_ip`. -/
structure LinuxVMResponse where
  status : String
  vm_name : String
  ip_address : String
  guest_os : String
  powerState : String
deriving DecidableEq, Repr

/-- Entry of the `/esxi/list_powered_on_vms` response list. -/
structure PoweredOnEntry where
  vm_name : String
  ip_address : Option String
  guest_os : String
  powerState : String
deriving DecidableEq, Repr

/-- A parsed `config.json` document: `json.load` yields either a JSON object
(modelled as its string-valued fields) or some other valid JSON value
(array, number, ...), on which Python's `dict.get` attribute access raises. -/
inductive Json where
  | obj (fields : List (String × String))
  | nonObj
deriving DecidableEq, Repr

/-! ### Configuration loader -/

/-- `load_vm_defaults` (lines 126-139).  The argument is the outcome of
`open("config.json")` + `json.load`: `none` when the file is missing,
unreadable or not valid JSON.  On a JSON object it uses `config.get` with
fallbacks `"root"` and `"password!"`; any raised error (including the
`AttributeError` from `.get` on a non-object document) is caught by the
`except Exception` clause and re-raised as a 500. -/
def load_vm_defaults : Option Json → Except HTTPException VMDefaults
  | some (.obj fields) =>
      .ok { default_vm_username := (fields.lookup "default_vm_username").getD "root",
            default_vm_sudo_password := (fields.lookup "default_vm_sudo_password").getD "password!" }
  | some .nonObj =>
      .error ⟨500, "Failed to load VM defaults from config.json"⟩
  | none =>
      .error ⟨500, "Failed to load VM defaults from config.json"⟩

/-! ### Remote command executor -/

/-- How the paramiko calls inside `run_ssh_command` behaved: the command ran
and produced streams and an exit status, or one of the exception paths of
lines 97-108 was taken. -/
inductive SSHOutcome where
  | connected (stdout stderr : String) (exitStatus : Nat)
  | authFailed
  | keyNotFound
  | sshError (msg : String)
  | unexpectedError (msg : String)
deriving DecidableEq, Repr

/-- `os.path.expanduser`: expand a leading `~` to the home directory. -/
def pyExpanduser (home path : String) : String :=
  if path == "~" then home
  else if leadsWith "~/".data path.data then home ++ ⟨path.data.drop 1⟩
  else path

/-- `run_ssh_command` (lines 57-110).  On a completed command it returns the
whitespace-stripped standard output; standard error is only logged and the
exit status is never consulted.  The four exception paths map to 401, 404,
500 and 500 with the messages of the source. -/
def run_ssh_command (home : String) (vm_config : VMConfig) (outcome : SSHOutcome) :
    Except HTTPException String :=
  let resolved_key_path := pyExpanduser home vm_config.ssh_key_path
  match outcome with
  | .connected stdout _stderr _exitStatus => .ok (pyStrip stdout)
  | .authFailed =>
      .error ⟨401, "Authentication failed for " ++ vm_config.username ++ "@"
        ++ vm_config.ip_address ++ ". Check SSH key/password."⟩
  | .keyNotFound =>
      .error ⟨404, "SSH Key not found at " ++ resolved_key_path
        ++ ". Ensure the key exists and path is correct."⟩
  | .sshError e =>
      .error ⟨500, "SSH error connecting to " ++ vm_config.ip_address ++ ": " ++ e⟩
  | .unexpectedError e =>
      .error ⟨500, "An unexpected error occurred during SSH operation: " ++ e⟩

/-! ### Upgrade classifier and upgrade endpoints -/

/-- The list comprehension of line 158: lines of the apt output containing
`"upgradable from"` or `"newer is available"`, in original order. -/
def upgradable_packages (apt_output : String) : List String :=
  (pySplitlines apt_output).filter
    (fun line => pyIn "upgradable from" line || pyIn "newer is available" line)

/-- Classification step of `check_vm_upgrades` (lines 158-166). -/
def classify_check (apt_output : String) : UpgradeReport :=
  if !(upgradable_packages apt_output).isEmpty then
    { status := "upgrades_available", package_manager := "apt",
      details := "Found the following upgradable packages via apt:\n"
        ++ pyJoinNL (upgradable_packages apt_output) }
  else if pyIn "All packages are up to date" apt_output
      || pyIn "0 packages can be upgraded" apt_output then
    { status := "no_upgrades", package_manager := "apt",
      details := "No upgradable packages found via apt. System is up-to-date." }
  else
    { status := "no_upgrades", package_manager := "apt",
      details := "Apt update ran, but no explicit upgradable packages identified. Your system is likely up-to-date." }

/-- Classification step of `apply_vm_upgrades` (lines 191-193). -/
def classify_apply (apt_upgrade_output : String) : UpgradeReport :=
  if pyIn "0 upgraded, 0 newly installed" apt_upgrade_output
      || pyIn "0 to upgrade, 0 to newly install" apt_upgrade_output
      || pyIn "0 packages upgraded" apt_upgrade_output then
    { status := "no_upgrades_applied", package_manager := "apt",
      details := "No new packages were upgraded or installed by apt. System was already up-to-date or no new upgrades were available." }
  else
    { status := "success", package_manager := "apt", details := apt_upgrade_output }

/-- Line 156: the command run by `check_vm_upgrades`. -/
def check_upgrades_command (sudo_password : String) : String :=
  "echo \x27" ++ sudo_password ++ "\x27 | sudo -S apt update && apt list --upgradable"

/-- Line 189: the command run by `apply_vm_upgrades`. -/
def apply_upgrades_command (sudo_password : String) : String :=
  "echo \x27" ++ sudo_password ++ "\x27 | sudo -S apt update && echo \x27"
    ++ sudo_password ++ "\x27 | sudo -S apt upgrade -y"

/-- Lines 150-151 / 183-184: `vm_config.username` is overwritten with the
configured default before the SSH session is opened. -/
def force_username (vm_defaults : VMDefaults) (vm_config : VMConfig) : VMConfig :=
  { vm_config with username := vm_defaults.default_vm_username }

/-- `POST /vm/check_upgrades` (lines 142-173).  `ssh` is the environment: the
outcome of opening an SSH session with the given connection details and
running the given command.  An `HTTPException` escaping `run_ssh_command` is
caught by the `except HTTPException` clause of lines 168-170 and re-raised
as a 500 whose detail embeds the original detail. -/
def check_vm_upgrades (home : String) (cfg : Option Json)
    (ssh : VMConfig → String → SSHOutcome) (vm_config : VMConfig) :
    Except HTTPException UpgradeReport :=
  match load_vm_defaults cfg with
  | .error e => .error e
  | .ok vm_defaults =>
    let vmc := force_username vm_defaults vm_config
    let command := check_upgrades_command vm_defaults.default_vm_sudo_password
    match run_ssh_command home vmc (ssh vmc command) with
    | .ok apt_output => .ok (classify_check apt_output)
    | .error e =>
        .error ⟨500, "Failed to check upgrades on " ++ vmc.ip_address
          ++ " using apt: " ++ e.detail⟩

/-- `POST /vm/apply_upgrades` (lines 175-199), same shape as
`check_vm_upgrades` with the apply command and `classify_apply`. -/
def apply_vm_upgrades (home : String) (cfg : Option Json)
    (ssh : VMConfig → String → SSHOutcome) (vm_config : VMConfig) :
    Except HTTPException UpgradeReport :=
  match load_vm_defaults cfg with
  | .error e => .error e
  | .ok vm_defaults =>
    let vmc := force_username vm_defaults vm_config
    let command := apply_upgrades_command vm_defaults.default_vm_sudo_password
    match run_ssh_command home vmc (ssh vmc command) with
    | .ok apt_upgrade_output => .ok (classify_apply apt_upgrade_output)
    | .error e =>
        .error ⟨500, "Failed to apply upgrades on " ++ vmc.ip_address
          ++ " using apt: " ++ e.detail⟩

/-! ### ESXi discovery endpoints -/

/-- Line 267 / 345: `vm.summary.guest.guestFullName if vm.summary.guest else "Unknown"`. -/
def guest_os_of (vm : VMRecord) : String :=
  match vm.guest with
  | some g => g.guestFullName
  | none => "Unknown"

/-- The guest-reported IP address field of a record
(`vm.summary.guest.ipAddress`, absent when the guest info is absent). -/
def guest_ip_of (vm : VMRecord) : Option String :=
  match vm.guest with
  | some g => g.ipAddress
  | none => none

/-- Python truthiness of the optional IP string: `if ip_address:` is false
for `None` and for the empty string. -/
def py_truthy_opt : Option String → Bool
  | none => false
  | some s => !(s == "")

/-- The scan loop of lines 262-274: walk the inventory; at the first record
whose name equals the query exactly, either select it (guest OS contains
`"Linux"` or `"Ubuntu"`) or raise a 400; records after the first name match
are never examined. -/
def scan_for_vm (vm_name : String) : List VMRecord → Except HTTPException (Option VMRecord)
  | [] => .ok none
  | vm :: rest =>
    if vm.name == vm_name then
      let guest_os := guest_os_of vm
      if pyIn "Linux" guest_os || pyIn "Ubuntu" guest_os then
        .ok (some vm)
      else
        .error ⟨400, "VM \x27" ++ vm_name ++ "\x27 is not a Linux VM (detected OS: "
          ++ guest_os ++ ")."⟩
    else
      scan_for_vm vm_name rest

/-- Lines 262-293 of `get_linux_vm_ip_from_esxi`: the scan plus the IP check
on the selected record, with the 404 raises of the no-IP and not-found
branches.  A record selected by the scan always carries guest info, since
its OS description matched; `guest_ip_of` is total anyway. -/
def get_linux_vm_ip_body (vms : List VMRecord) (vm_name : String) :
    Except HTTPException LinuxVMResponse :=
  match scan_for_vm vm_name vms with
  | .error e => .error e
  | .ok (some found_vm) =>
    let ip_address := guest_ip_of found_vm
    if py_truthy_opt ip_address then
      .ok { status := "success", vm_name := found_vm.name,
            ip_address := ip_address.getD "",
            guest_os := guest_os_of found_vm,
            powerState := found_vm.powerState }
    else
      .error ⟨404, "VM \x27" ++ vm_name
        ++ "\x27 found, but no IP address reported. Ensure VMware Tools are installed and running."⟩
  | .ok none =>
      .error ⟨404, "VM \x27" ++ vm_name ++ "\x27 not found on ESXi/vCenter."⟩

/-- `str()` of a starlette `HTTPException`: `f"{status_code}: {detail}"`. -/
def http_exception_str (e : HTTPException) : String :=
  toString e.status_code ++ ": " ++ e.detail

/-- `POST /esxi/get_linux_vm_ip` after a successful config load and
connection (lines 254-300).  The body's own `raise HTTPException` statements
sit inside the outer `try` block, and `HTTPException` subclasses `Exception`,
so the `except Exception` clause of lines 298-300 catches them and re-raises
a 500 whose detail interpolates `str(e)`. -/
def get_linux_vm_ip (vms : List VMRecord) (vm_name : String) :
    Except HTTPException LinuxVMResponse :=
  match get_linux_vm_ip_body vms vm_name with
  | .ok r => .ok r
  | .error e =>
      .error ⟨500, "Failed to retrieve VM IP from ESXi/vCenter: " ++ http_exception_str e⟩

/-- Outcome taxonomy of the spec's `find_by_name` derived operation,
realized inline by lines 262-293. -/
inductive FindResult where
  | found (r : VMRecord)
  | notFound
  | notLinux
  | noIPReported
deriving DecidableEq, Repr

/-- The spec's `find_by_name(list, name)` view of lines 262-293: which of the
four outcomes the inline scan-plus-IP-check takes. -/
def find_by_name (vms : List VMRecord) (vm_name : String) : FindResult :=
  match scan_for_vm vm_name vms with
  | .error _ => .notLinux
  | .ok none => .notFound
  | .ok (some r) =>
      if py_truthy_opt (guest_ip_of r) then .found r else .noIPReported

/-- Entry built by lines 347-352 for one powered-on record. -/
def powered_on_entry (vm : VMRecord) : PoweredOnEntry :=
  { vm_name := vm.name,
    ip_address := guest_ip_of vm,
    guest_os := guest_os_of vm,
    powerState := vm.powerState }

/-- The accumulation loop of `list_powered_on_vms` (lines 341-352): keep
exactly the records whose power state equals `"poweredOn"`. -/
def list_powered_on_vms : List VMRecord → List PoweredOnEntry
  | [] => []
  | vm :: rest =>
    if vm.powerState == "poweredOn" then
      powered_on_entry vm :: list_powered_on_vms rest
    else
      list_powered_on_vms rest

/-- The scan's Linux test as a proposition: the guest-OS description
contains `"Linux"` or `"Ubuntu"` as a substring. -/
def LinuxGuestOS (r : VMRecord) : Prop :=
  PyIn "Linux" (guest_os_of r) ∨ PyIn "Ubuntu" (guest_os_of r)

/-- The record reports a guest IP address: a non-empty address string.
This is Python truthiness of `summary.guest.ipAddress`, under which `None`
and the empty string both count as no reported address. -/
def ReportsGuestIP (r : VMRecord) : Prop :=
  ∃ s, guest_ip_of r = some s ∧ s ≠ ""

/-- A powered-on Ubuntu record used to instantiate the general theorems. -/
def sampleLinuxVM : VMRecord :=
  ⟨"MyTestLinuxVM", some ⟨"Ubuntu Linux (64-bit)", some "192.168.1.10"⟩, "poweredOn"⟩

/-! ### Lemmas about the string primitives -/

theorem leadsWith_iff (n : List Char) : ∀ h : List Char,
    leadsWith n h = true ↔ ∃ t, h = n ++ t := by
  induction n with
  | nil =>
    intro h
    simp [leadsWith]
  | cons a n ih =>
    intro h
    cases h with
    | nil =>
      simp [leadsWith]
    | cons b h =>
      simp only [leadsWith, Bool.and_eq_true, beq_iff_eq, ih h, List.cons_append,
        List.cons.injEq]
      constructor
      · rintro ⟨rfl, t, rfl⟩
        exact ⟨t, rfl, rfl⟩
      · rintro ⟨t, rfl, rfl⟩
        exact ⟨rfl, t, rfl⟩

theorem containsSeq_iff (n : List Char) : ∀ h : List Char,
    containsSeq n h = true ↔ ContainsSub n h := by
  intro h
  induction h with
  | nil =>
    simp only [containsSeq, List.isEmpty_iff, ContainsSub]
    constructor
    · rintro rfl
      exact ⟨[], [], rfl⟩
    · rintro ⟨pre, post, hp⟩
      rcases List.append_eq_nil.mp (List.append_eq_nil.mp hp.symm).1 with ⟨_, h2⟩
      exact h2
  | cons c t ih =>
    simp only [containsSeq, Bool.or_eq_true, leadsWith_iff, ih, ContainsSub]
    constructor
    · rintro (⟨u, hu⟩ | ⟨pre, post, rfl⟩)
      · exact ⟨[], u, by simpa using hu⟩
      · exact ⟨c :: pre, post, rfl⟩
    · rintro ⟨pre, post, hp⟩
      cases pre with
      | nil =>
        exact Or.inl ⟨post, by simpa using hp⟩
      | cons c' pre =>
        rcases List.cons.injEq .. ▸ hp with ⟨_, rfl⟩
        exact Or.inr ⟨pre, post, rfl⟩

theorem pyIn_iff (needle hay : String) : pyIn needle hay = true ↔ PyIn needle hay :=
  containsSeq_iff needle.data hay.data

theorem PyIn_self_append (n t : String) : PyIn n (n ++ t) :=
  ⟨[], t.data, by simp [String.data_append]⟩

theorem PyIn.append_left {n h : String} (g : String) (hin : PyIn n h) : PyIn n (h ++ g) := by
  rcases hin with ⟨pre, post, hp⟩
  exact ⟨pre, post ++ g.data, by simp [String.data_append, hp]⟩

theorem PyIn.append_right {n h : String} (g : String) (hin : PyIn n h) : PyIn n (g ++ h) := by
  rcases hin with ⟨pre, post, hp⟩
  exact ⟨g.data ++ pre, post, by simp [String.data_append, hp]⟩

theorem PyIn.trans {a b c : String} (h1 : PyIn a b) (h2 : PyIn b c) : PyIn a c := by
  rcases h1 with ⟨p1, q1, hp1⟩
  rcases h2 with ⟨p2, q2, hp2⟩
  exact ⟨p2 ++ p1, q1 ++ q2, by simp [hp2, hp1]⟩

theorem PyIn_refl (a : String) : PyIn a a :=
  ⟨[], [], by simp⟩

/-- Every member of a line list occurs inside its `"\n".join`. -/
theorem PyIn_pyJoinNL {l : String} : ∀ {ls : List String}, l ∈ ls → PyIn l (pyJoinNL ls) := by
  intro ls
  induction ls with
  | nil => intro h; cases h
  | cons x ls ih =>
    intro hmem
    cases ls with
    | nil =>
      rcases List.mem_singleton.mp hmem with rfl
      exact PyIn_refl l
    | cons y ls =>
      rcases List.mem_cons.mp hmem with rfl | hmem'
      · have : pyJoinNL (l :: y :: ls) = l ++ ("\n" ++ pyJoinNL (y :: ls)) := by
          simp [pyJoinNL, String.append_assoc]
        rw [this]
        exact PyIn_self_append l _
      · have : pyJoinNL (x :: y :: ls) = (x ++ "\n") ++ pyJoinNL (y :: ls) := by
          simp [pyJoinNL, String.append_assoc]
        rw [this]
        exact PyIn.append_right _ (ih hmem')

/-! ### Lemmas about the inventory scan -/

theorem py_truthy_opt_iff (o : Option String) :
    py_truthy_opt o = true ↔ ∃ s, o = some s ∧ s ≠ "" := by
  cases o <;> simp [py_truthy_opt]

theorem linux_test_iff (r : VMRecord) :
    (pyIn "Linux" (guest_os_of r) || pyIn "Ubuntu" (guest_os_of r)) = true
      ↔ LinuxGuestOS r := by
  simp [LinuxGuestOS, ← pyIn_iff]

/-- When no inventory record's name equals the query, the scan completes
without selecting or raising. -/
theorem scan_for_vm_of_no_match {vm_name : String} : ∀ {vms : List VMRecord},
    (∀ r ∈ vms, r.name ≠ vm_name) → scan_for_vm vm_name vms = .ok none := by
  intro vms
  induction vms with
  | nil => intro _; rfl
  | cons vm rest ih =>
    intro h
    have hne : vm.name ≠ vm_name := h vm (List.mem_cons_self ..)
    unfold scan_for_vm
    rw [if_neg (by simp [hne])]
    exact ih (fun r hr => h r (List.mem_cons_of_mem _ hr))

/-- The scan is decided by the first name-matching record: it is selected if
its guest OS passes the Linux test and a 400 is raised otherwise. -/
theorem scan_for_vm_first_match {vm_name : String} {r : VMRecord} (post : List VMRecord) :
    ∀ pre : List VMRecord, (∀ p ∈ pre, p.name ≠ vm_name) → r.name = vm_name →
    scan_for_vm vm_name (pre ++ r :: post)
      = if pyIn "Linux" (guest_os_of r) || pyIn "Ubuntu" (guest_os_of r) then
          .ok (some r)
        else
          .error ⟨400, "VM \x27" ++ vm_name ++ "\x27 is not a Linux VM (detected OS: "
            ++ guest_os_of r ++ ")."⟩ := by
  intro pre
  induction pre with
  | nil =>
    intro _ hname
    rw [List.nil_append]
    unfold scan_for_vm
    rw [if_pos (by simp [hname])]
  | cons p pre ih =>
    intro hpre hname
    have hne : p.name ≠ vm_name := hpre p (List.mem_cons_self ..)
    rw [List.cons_append]
    unfold scan_for_vm
    rw [if_neg (by simp [hne])]
    exact ih (fun q hq => hpre q (List.mem_cons_of_mem _ hq)) hname

/-- The powered-on loop is the filter of the inventory by power state,
mapped through the per-record entry constructor. -/
theorem list_powered_on_vms_eq (vms : List VMRecord) :
    list_powered_on_vms vms
      = (vms.filter (fun r => r.powerState == "poweredOn")).map powered_on_entry := by
  induction vms with
  | nil => rfl
  | cons vm rest ih =>
    unfold list_powered_on_vms
    rw [List.filter_cons]
    cases hps : (vm.powerState == "poweredOn") <;> simp [hps, ih]

/-- The authentication-failure message of `run_ssh_command` contains the
marker text `"Authentication failed"`. -/
theorem PyIn_auth_msg (u ip : String) :
    PyIn "Authentication failed"
      ("Authentication failed for " ++ u ++ "@" ++ ip ++ ". Check SSH key/password.") := by
  have h0 : PyIn "Authentication failed" "Authentication failed for " :=
    PyIn_self_append "Authentication failed" " for "
  exact (((h0.append_left u).append_left "@").append_left ip).append_left ". Check SSH key/password."

/-- The missing-key message of `run_ssh_command` contains the marker text
`"SSH Key not found"`. -/
theorem PyIn_key_msg (p : String) :
    PyIn "SSH Key not found"
      ("SSH Key not found at " ++ p ++ ". Ensure the key exists and path is correct.") := by
  have h0 : PyIn "SSH Key not found" "SSH Key not found at " :=
    PyIn_self_append "SSH Key not found" " at "
  exact (h0.append_left p).append_left ". Ensure the key exists and path is correct."

/-! ### Claims -/

/-- Claim C1 (code bug): the spec and the endpoint's own docstring and test
promise 400 for a name-matching non-Linux VM and 404 (detail containing
"not found") for an absent name or a missing guest IP, but every one of
these `raise HTTPException` statements sits inside the outer `try` whose
`except Exception` clause catches `HTTPException` (a subclass of
`Exception`) and re-raises a 500.  At the three failing inputs the actual
response status is 500, with the intended status and detail only embedded
in the 500's detail text. -/
theorem c1_blanket_except_rewraps_to_500 :
    (get_linux_vm_ip [] "MyTestLinuxVM"
        = .error ⟨500, "Failed to retrieve VM IP from ESXi/vCenter: 404: VM \x27MyTestLinuxVM\x27 not found on ESXi/vCenter."⟩)
  ∧ (get_linux_vm_ip
        [⟨"WinVM", some ⟨"Microsoft Windows Server 2019 (64-bit)", some "10.0.0.7"⟩, "poweredOn"⟩]
        "WinVM"
        = .error ⟨500, "Failed to retrieve VM IP from ESXi/vCenter: 400: VM \x27WinVM\x27 is not a Linux VM (detected OS: Microsoft Windows Server 2019 (64-bit))."⟩)
  ∧ (get_linux_vm_ip [⟨"UbuVM", some ⟨"Ubuntu Linux (64-bit)", none⟩, "poweredOn"⟩] "UbuVM"
        = .error ⟨500, "Failed to retrieve VM IP from ESXi/vCenter: 404: VM \x27UbuVM\x27 found, but no IP address reported. Ensure VMware Tools are installed and running."⟩) :=
  ⟨rfl, rfl, rfl⟩

/-- Claim C2 (counterexample): an SSH authentication failure during
`/vm/check_upgrades` reaches the caller as a 500, not the claimed 401, and
a missing key file during `/vm/apply_upgrades` reaches the caller as a 500,
not the claimed 404: the handlers catch the `HTTPException` raised by
`run_ssh_command` and re-raise a 500. -/
theorem c2_counterexample :
    (check_vm_upgrades "/root" (some (.obj [])) (fun _ _ => .authFailed)
        ⟨"10.0.0.5", "ubuntu", "~/.ssh/openwebui_vm_key"⟩
      = .error ⟨500, "Failed to check upgrades on 10.0.0.5 using apt: Authentication failed for root@10.0.0.5. Check SSH key/password."⟩)
  ∧ (apply_vm_upgrades "/root" (some (.obj [])) (fun _ _ => .keyNotFound)
        ⟨"10.0.0.5", "ubuntu", "/tmp/key"⟩
      = .error ⟨500, "Failed to apply upgrades on 10.0.0.5 using apt: SSH Key not found at /tmp/key. Ensure the key exists and path is correct."⟩) :=
  ⟨rfl, rfl⟩

/-- Claim C2 (amended): for both upgrade endpoints, an SSH-layer
authentication failure or a private-key file absent at the resolved path is
surfaced to the caller as a 500 whose detail embeds the underlying
authentication-failure / key-not-found message (the 401/404 raised inside
`run_ssh_command` is caught by the handler and re-wrapped). -/
theorem c2_amended_ssh_failures_wrap_to_500 (home : String)
    (fields : List (String × String)) (req : VMConfig)
    (sshA sshK : VMConfig → String → SSHOutcome)
    (hA : ∀ vmc cmd, sshA vmc cmd = .authFailed)
    (hK : ∀ vmc cmd, sshK vmc cmd = .keyNotFound) :
    (∃ e, check_vm_upgrades home (some (.obj fields)) sshA req = .error e
        ∧ e.status_code = 500 ∧ PyIn "Authentication failed" e.detail)
  ∧ (∃ e, apply_vm_upgrades home (some (.obj fields)) sshA req = .error e
        ∧ e.status_code = 500 ∧ PyIn "Authentication failed" e.detail)
  ∧ (∃ e, check_vm_upgrades home (some (.obj fields)) sshK req = .error e
        ∧ e.status_code = 500 ∧ PyIn "SSH Key not found" e.detail)
  ∧ (∃ e, apply_vm_upgrades home (some (.obj fields)) sshK req = .error e
        ∧ e.status_code = 500 ∧ PyIn "SSH Key not found" e.detail) := by
  refine ⟨?_, ?_, ?_, ?_⟩
  · simp only [check_vm_upgrades, load_vm_defaults, hA, run_ssh_command, force_username]
    exact ⟨_, rfl, rfl, PyIn.append_right _ (PyIn_auth_msg _ _)⟩
  · simp only [apply_vm_upgrades, load_vm_defaults, hA, run_ssh_command, force_username]
    exact ⟨_, rfl, rfl, PyIn.append_right _ (PyIn_auth_msg _ _)⟩
  · simp only [check_vm_upgrades, load_vm_defaults, hK, run_ssh_command, force_username]
    exact ⟨_, rfl, rfl, PyIn.append_right _ (PyIn_key_msg _)⟩
  · simp only [apply_vm_upgrades, load_vm_defaults, hK, run_ssh_command, force_username]
    exact ⟨_, rfl, rfl, PyIn.append_right _ (PyIn_key_msg _)⟩

/-- Instantiation of the amended C2 theorem at a concrete request and
environment. -/
theorem c2_amended_ssh_failures_wrap_to_500_witness :
    (∃ e, check_vm_upgrades "/root" (some (.obj []))
          (fun _ _ => .authFailed) ⟨"10.0.0.5", "ubuntu", "/tmp/key"⟩ = .error e
        ∧ e.status_code = 500 ∧ PyIn "Authentication failed" e.detail)
  ∧ (∃ e, apply_vm_upgrades "/root" (some (.obj []))
          (fun _ _ => .authFailed) ⟨"10.0.0.5", "ubuntu", "/tmp/key"⟩ = .error e
        ∧ e.status_code = 500 ∧ PyIn "Authentication failed" e.detail)
  ∧ (∃ e, check_vm_upgrades "/root" (some (.obj []))
          (fun _ _ => .keyNotFound) ⟨"10.0.0.5", "ubuntu", "/tmp/key"⟩ = .error e
        ∧ e.status_code = 500 ∧ PyIn "SSH Key not found" e.detail)
  ∧ (∃ e, apply_vm_upgrades "/root" (some (.obj []))
          (fun _ _ => .keyNotFound) ⟨"10.0.0.5", "ubuntu", "/tmp/key"⟩ = .error e
        ∧ e.status_code = 500 ∧ PyIn "SSH Key not found" e.detail) :=
  c2_amended_ssh_failures_wrap_to_500 "/root" [] ⟨"10.0.0.5", "ubuntu", "/tmp/key"⟩
    (fun _ _ => .authFailed) (fun _ _ => .keyNotFound)
    (fun _ _ => rfl) (fun _ _ => rfl)

/-- Claim C3: `find_by_name` returns `notFound` when no record's name equals
the query exactly; `notLinux` when the first name-matching record's guest-OS
text contains neither `"Linux"` nor `"Ubuntu"`; `noIPReported` when that
matching Linux record reports no guest IP address; and otherwise the
matching record itself. -/
theorem c3_find_by_name_cases (vms : List VMRecord) (vm_name : String) :
    ((∀ r ∈ vms, r.name ≠ vm_name) → find_by_name vms vm_name = .notFound)
  ∧ (∀ pre r post, vms = pre ++ r :: post →
      (∀ p ∈ pre, p.name ≠ vm_name) → r.name = vm_name →
      ((¬ LinuxGuestOS r → find_by_name vms vm_name = .notLinux)
       ∧ (LinuxGuestOS r → ¬ ReportsGuestIP r → find_by_name vms vm_name = .noIPReported)
       ∧ (LinuxGuestOS r → ReportsGuestIP r → find_by_name vms vm_name = .found r))) := by
  constructor
  · intro h
    unfold find_by_name
    rw [scan_for_vm_of_no_match h]
  · rintro pre r post rfl hpre hname
    have hscan := scan_for_vm_first_match post pre hpre hname
    refine ⟨?_, ?_, ?_⟩
    · intro hnot
      unfold find_by_name
      rw [hscan, if_neg (fun hb => hnot ((linux_test_iff r).mp hb))]
    · intro hlin hnoip
      unfold find_by_name
      rw [hscan, if_pos ((linux_test_iff r).mpr hlin)]
      simp only []
      rw [if_neg (fun hb => hnoip ((py_truthy_opt_iff _).mp hb))]
    · intro hlin hip
      unfold find_by_name
      rw [hscan, if_pos ((linux_test_iff r).mpr hlin)]
      simp only []
      rw [if_pos ((py_truthy_opt_iff _).mpr hip)]

/-- Instantiation of C3: a one-record inventory whose record matches by name,
has an Ubuntu guest OS and reports an IP is returned as found. -/
theorem c3_find_by_name_cases_witness :
    find_by_name [sampleLinuxVM] "MyTestLinuxVM" = .found sampleLinuxVM := by
  have h := (c3_find_by_name_cases [sampleLinuxVM] "MyTestLinuxVM").2
    [] sampleLinuxVM [] rfl (by intro p hp; cases hp) rfl
  refine h.2.2 (Or.inr ((pyIn_iff _ _).mp (by decide))) ⟨"192.168.1.10", rfl, by decide⟩

/-- Claim C4: the powered-on listing is exactly the subsequence of records
with power state `"poweredOn"` (filter), each mapped to an entry that passes
the record's name, IP address, guest-OS description and power state through,
with an absent IP surfaced as `none` rather than excluding the record. -/
theorem c4_filter_powered_on (vms : List VMRecord) :
    (list_powered_on_vms vms
        = (vms.filter (fun r => r.powerState == "poweredOn")).map powered_on_entry)
  ∧ (∀ e ∈ list_powered_on_vms vms, e.powerState = "poweredOn")
  ∧ (∀ r : VMRecord, (powered_on_entry r).vm_name = r.name
        ∧ (powered_on_entry r).powerState = r.powerState)
  ∧ (∀ (r : VMRecord) (g : GuestInfo), r.guest = some g →
        (powered_on_entry r).ip_address = g.ipAddress
        ∧ (powered_on_entry r).guest_os = g.guestFullName)
  ∧ (∀ r : VMRecord, r.guest = none → (powered_on_entry r).ip_address = none) := by
  refine ⟨list_powered_on_vms_eq vms, ?_, ?_, ?_, ?_⟩
  · intro e he
    rw [list_powered_on_vms_eq] at he
    rcases List.mem_map.mp he with ⟨r, hr, rfl⟩
    have hps := (List.mem_filter.mp hr).2
    simpa [powered_on_entry] using hps
  · intro r
    exact ⟨rfl, rfl⟩
  · intro r g hg
    constructor <;> simp [powered_on_entry, guest_ip_of, guest_os_of, hg]
  · intro r hg
    simp [powered_on_entry, guest_ip_of, hg]

/-- Instantiation of C4 at a record with guest info present. -/
theorem c4_filter_powered_on_witness :
    (powered_on_entry sampleLinuxVM).ip_address = some "192.168.1.10"
  ∧ (powered_on_entry sampleLinuxVM).guest_os = "Ubuntu Linux (64-bit)" :=
  (c4_filter_powered_on [sampleLinuxVM]).2.2.2.1 sampleLinuxVM
    ⟨"Ubuntu Linux (64-bit)", some "192.168.1.10"⟩ rfl

/-- Claim C5: if any line of the output contains `"upgradable from"` or
`"newer is available"`, `classify_check` reports `upgrades_available` with
every such line embedded in the details in original order (the details are
the header followed by the `"\n"` join of exactly those lines); otherwise it
reports `no_upgrades`, with the confident message when the output contains
one of the up-to-date phrases and the hedged message otherwise. -/
theorem c5_classify_check (out : String) :
    (upgradable_packages out ≠ [] →
        (classify_check out).status = "upgrades_available"
      ∧ (classify_check out).details
          = "Found the following upgradable packages via apt:\n"
              ++ pyJoinNL (upgradable_packages out)
      ∧ ∀ l ∈ upgradable_packages out, PyIn l (classify_check out).details)
  ∧ (upgradable_packages out = [] →
        (classify_check out).status = "no_upgrades")
  ∧ (upgradable_packages out = [] →
      (PyIn "All packages are up to date" out ∨ PyIn "0 packages can be upgraded" out) →
        (classify_check out).details
          = "No upgradable packages found via apt. System is up-to-date.")
  ∧ (upgradable_packages out = [] →
      ¬(PyIn "All packages are up to date" out ∨ PyIn "0 packages can be upgraded" out) →
        (classify_check out).details
          = "Apt update ran, but no explicit upgradable packages identified. Your system is likely up-to-date.") := by
  refine ⟨?_, ?_, ?_, ?_⟩
  · intro hne
    have hb : (!(upgradable_packages out).isEmpty) = true := by
      simpa [List.isEmpty_iff] using hne
    unfold classify_check
    rw [if_pos hb]
    exact ⟨rfl, rfl, fun l hl => PyIn.append_right _ (PyIn_pyJoinNL hl)⟩
  · intro he
    unfold classify_check
    rw [if_neg (by simp [he])]
    cases hcond : (pyIn "All packages are up to date" out
        || pyIn "0 packages can be upgraded" out) <;> simp [hcond]
  · intro he hup
    have hcond : (pyIn "All packages are up to date" out
        || pyIn "0 packages can be upgraded" out) = true := by
      rcases hup with h | h <;> simp [(pyIn_iff _ _).mpr h]
    unfold classify_check
    rw [if_neg (by simp [he]), if_pos hcond]
  · intro he hnot
    have hcond : (pyIn "All packages are up to date" out
        || pyIn "0 packages can be upgraded" out) = false := by
      refine Bool.or_eq_false_iff.mpr ⟨?_, ?_⟩
      · exact Bool.eq_false_iff.mpr (fun h => hnot (Or.inl ((pyIn_iff _ _).mp h)))
      · exact Bool.eq_false_iff.mpr (fun h => hnot (Or.inr ((pyIn_iff _ _).mp h)))
    unfold classify_check
    rw [if_neg (by simp [he]), if_neg (by simp [hcond])]

/-- Instantiation of C5 at an apt listing with two upgradable lines. -/
theorem c5_classify_check_witness :
    (classify_check "Listing... Done\nvim/jammy [upgradable from: 2:8.1]\nnano/jammy [upgradable from: 6.1]").status
        = "upgrades_available"
  ∧ (classify_check "Listing... Done\nvim/jammy [upgradable from: 2:8.1]\nnano/jammy [upgradable from: 6.1]").details
        = "Found the following upgradable packages via apt:\nvim/jammy [upgradable from: 2:8.1]\nnano/jammy [upgradable from: 6.1]" := by
  have h := (c5_classify_check
    "Listing... Done\nvim/jammy [upgradable from: 2:8.1]\nnano/jammy [upgradable from: 6.1]").1
    (by decide)
  exact ⟨h.1, h.2.1⟩

/-- Claim C6 (counterexample): the output `"0 packages upgraded."` does not
contain the phrase `"0 upgraded, 0 newly installed, 0 to remove and 0 not
upgraded."`, yet `classify_apply` does not return `success` with the raw
input as details: the code also triggers on the shorter phrases
`"0 to upgrade, 0 to newly install"` and `"0 packages upgraded"`. -/
theorem c6_counterexample :
    pyIn "0 upgraded, 0 newly installed, 0 to remove and 0 not upgraded."
        "0 packages upgraded." = false
  ∧ classify_apply "0 packages upgraded."
      ≠ { status := "success", package_manager := "apt", details := "0 packages upgraded." }
  ∧ (classify_apply "0 packages upgraded.").status = "no_upgrades_applied" := by
  refine ⟨rfl, ?_, rfl⟩
  decide

/-- Claim C6 (amended): `classify_apply` returns `no_upgrades_applied`
whenever the output contains any of the three trigger phrases
`"0 upgraded, 0 newly installed"`, `"0 to upgrade, 0 to newly install"`,
`"0 packages upgraded"` — in particular whenever it contains
`"0 upgraded, 0 newly installed, 0 to remove and 0 not upgraded."` — and on
any output containing none of the three it returns `success` with details
equal to the raw input. -/
theorem c6_amended_classify_apply (out : String) :
    ((PyIn "0 upgraded, 0 newly installed" out
        ∨ PyIn "0 to upgrade, 0 to newly install" out
        ∨ PyIn "0 packages upgraded" out) →
      classify_apply out
        = { status := "no_upgrades_applied", package_manager := "apt",
            details := "No new packages were upgraded or installed by apt. System was already up-to-date or no new upgrades were available." })
  ∧ (PyIn "0 upgraded, 0 newly installed, 0 to remove and 0 not upgraded." out →
      (classify_apply out).status = "no_upgrades_applied")
  ∧ (¬(PyIn "0 upgraded, 0 newly installed" out
        ∨ PyIn "0 to upgrade, 0 to newly install" out
        ∨ PyIn "0 packages upgraded" out) →
      classify_apply out = { status := "success", package_manager := "apt", details := out }) := by
  have hmain : (PyIn "0 upgraded, 0 newly installed" out
      ∨ PyIn "0 to upgrade, 0 to newly install" out
      ∨ PyIn "0 packages upgraded" out) →
      classify_apply out
        = { status := "no_upgrades_applied", package_manager := "apt",
            details := "No new packages were upgraded or installed by apt. System was already up-to-date or no new upgrades were available." } := by
    intro h
    have hcond : (pyIn "0 upgraded, 0 newly installed" out
        || pyIn "0 to upgrade, 0 to newly install" out
        || pyIn "0 packages upgraded" out) = true := by
      rcases h with h | h | h <;> simp [(pyIn_iff _ _).mpr h]
    unfold classify_apply
    rw [if_pos hcond]
  refine ⟨hmain, ?_, ?_⟩
  · intro h
    have hsl : PyIn "0 upgraded, 0 newly installed"
        "0 upgraded, 0 newly installed, 0 to remove and 0 not upgraded." :=
      PyIn_self_append "0 upgraded, 0 newly installed" ", 0 to remove and 0 not upgraded."
    rw [hmain (Or.inl (hsl.trans h))]
  · intro h
    have hcond : (pyIn "0 upgraded, 0 newly installed" out
        || pyIn "0 to upgrade, 0 to newly install" out
        || pyIn "0 packages upgraded" out) = false := by
      refine Bool.or_eq_false_iff.mpr ⟨Bool.or_eq_false_iff.mpr ⟨?_, ?_⟩, ?_⟩
      · exact Bool.eq_false_iff.mpr (fun hb => h (Or.inl ((pyIn_iff _ _).mp hb)))
      · exact Bool.eq_false_iff.mpr (fun hb => h (Or.inr (Or.inl ((pyIn_iff _ _).mp hb))))
      · exact Bool.eq_false_iff.mpr (fun hb => h (Or.inr (Or.inr ((pyIn_iff _ _).mp hb))))
    unfold classify_apply
    rw [if_neg (by simp [hcond])]

/-- Instantiation of the amended C6 theorem: the full nothing-changed apt
line triggers `no_upgrades_applied`; an output with none of the trigger
phrases is passed through as `success`. -/
theorem c6_amended_classify_apply_witness :
    (classify_apply "Done.\n0 upgraded, 0 newly installed, 0 to remove and 0 not upgraded.").status
        = "no_upgrades_applied"
  ∧ classify_apply "upgraded 3 packages"
        = { status := "success", package_manager := "apt", details := "upgraded 3 packages" } := by
  constructor
  · exact (c6_amended_classify_apply _).2.1 ((pyIn_iff _ _).mp (by decide))
  · refine (c6_amended_classify_apply "upgraded 3 packages").2.2 ?_
    intro hor
    have : (pyIn "0 upgraded, 0 newly installed" "upgraded 3 packages"
        || pyIn "0 to upgrade, 0 to newly install" "upgraded 3 packages"
        || pyIn "0 packages upgraded" "upgraded 3 packages") = true := by
      rcases hor with h | h | h <;> simp [(pyIn_iff _ _).mpr h]
    exact absurd this (by decide)

/-- Claim C7: both upgrade handlers replace the caller-supplied username with
the configured default before the SSH session is opened — the connection
config passed on keeps the request's `ip_address` and `ssh_key_path` but
carries `default_vm_username` — and consequently the handlers' behavior is
independent of the username field of the request body. -/
theorem c7_username_forced (home : String) (cfg : Option Json)
    (ssh : VMConfig → String → SSHOutcome) (req : VMConfig) (u : String) (d : VMDefaults) :
    ((force_username d req).username = d.default_vm_username
      ∧ (force_username d req).ip_address = req.ip_address
      ∧ (force_username d req).ssh_key_path = req.ssh_key_path)
  ∧ check_vm_upgrades home cfg ssh { req with username := u }
      = check_vm_upgrades home cfg ssh req
  ∧ apply_vm_upgrades home cfg ssh { req with username := u }
      = apply_vm_upgrades home cfg ssh req := by
  refine ⟨⟨rfl, rfl, rfl⟩, ?_, ?_⟩
  · unfold check_vm_upgrades
    cases load_vm_defaults cfg <;> rfl
  · unfold apply_vm_upgrades
    cases load_vm_defaults cfg <;> rfl

/-- Claim C8: the single command string handed to the remote executor embeds
the configured sudo password in cleartext, piped into `sudo -S` — for
check_upgrades it is exactly
`echo '<password>' | sudo -S apt update && apt list --upgradable` and for
apply_upgrades exactly
`echo '<password>' | sudo -S apt update && echo '<password>' | sudo -S apt upgrade -y` —
so the password occurs as a substring of both command lines. -/
theorem c8_sudo_password_in_command (sudo_password : String) :
    check_upgrades_command sudo_password
        = "echo \x27" ++ sudo_password ++ "\x27 | sudo -S apt update && apt list --upgradable"
  ∧ apply_upgrades_command sudo_password
        = "echo \x27" ++ sudo_password ++ "\x27 | sudo -S apt update && echo \x27"
            ++ sudo_password ++ "\x27 | sudo -S apt upgrade -y"
  ∧ PyIn sudo_password (check_upgrades_command sudo_password)
  ∧ PyIn sudo_password (apply_upgrades_command sudo_password) := by
  refine ⟨rfl, rfl, ?_, ?_⟩
  · exact PyIn.append_left _ (PyIn.append_right _ (PyIn_refl _))
  · exact PyIn.append_left _ (PyIn.append_left _
      (PyIn.append_left _ (PyIn.append_right _ (PyIn_refl _))))

/-- Claim C9 (counterexample): a readable configuration file whose content is
valid JSON but not a JSON object (for example a top-level array) makes
`load_vm_defaults` fail with a 500 — Python's `config.get` raises
`AttributeError`, caught by the blanket `except` — so "valid JSON never
fails" is too strong as stated. -/
theorem c9_counterexample :
    load_vm_defaults (some .nonObj)
      = .error ⟨500, "Failed to load VM defaults from config.json"⟩ :=
  rfl

/-- Claim C9 (amended): for every configuration file whose content is a valid
JSON object, `load_vm_defaults` succeeds and never fails on a missing key —
configured values are returned when present and the fallbacks `"root"` /
`"password!"` substitute for whichever key is absent — and every failure of
the loader (missing/unreadable file, invalid JSON, valid JSON that is not an
object) carries status 500. -/
theorem c9_amended_load_vm_defaults (fields : List (String × String))
    (u p : String) (cfg : Option Json) :
    (∃ d, load_vm_defaults (some (.obj fields)) = .ok d)
  ∧ (fields.lookup "default_vm_username" = some u →
      fields.lookup "default_vm_sudo_password" = some p →
        load_vm_defaults (some (.obj fields)) = .ok ⟨u, p⟩)
  ∧ (fields.lookup "default_vm_username" = none →
      fields.lookup "default_vm_sudo_password" = some p →
        load_vm_defaults (some (.obj fields)) = .ok ⟨"root", p⟩)
  ∧ (fields.lookup "default_vm_username" = some u →
      fields.lookup "default_vm_sudo_password" = none →
        load_vm_defaults (some (.obj fields)) = .ok ⟨u, "password!"⟩)
  ∧ (fields.lookup "default_vm_username" = none →
      fields.lookup "default_vm_sudo_password" = none →
        load_vm_defaults (some (.obj fields)) = .ok ⟨"root", "password!"⟩)
  ∧ load_vm_defaults none = .error ⟨500, "Failed to load VM defaults from config.json"⟩
  ∧ (∀ e, load_vm_defaults cfg = .error e → e.status_code = 500) := by
  refine ⟨⟨_, rfl⟩, ?_, ?_, ?_, ?_, rfl, ?_⟩
  · intro h1 h2
    simp [load_vm_defaults, h1, h2]
  · intro h1 h2
    simp [load_vm_defaults, h1, h2]
  · intro h1 h2
    simp [load_vm_defaults, h1, h2]
  · intro h1 h2
    simp [load_vm_defaults, h1, h2]
  · intro e he
    rcases cfg with _ | fs | _
    · simp only [load_vm_defaults, Except.error.injEq] at he
      rw [← he]
    · exact Except.noConfusion he
    · simp only [load_vm_defaults, Except.error.injEq] at he
      rw [← he]

/-- Instantiation of the amended C9 theorem: a config object with only the
username key yields that username and the fallback password. -/
theorem c9_amended_load_vm_defaults_witness :
    load_vm_defaults (some (.obj [("default_vm_username", "alice")]))
      = .ok ⟨"alice", "password!"⟩ :=
  (c9_amended_load_vm_defaults [("default_vm_username", "alice")] "alice" "unused" none).2.2.2.1
    rfl rfl

/-- Claim C10: when the SSH session and command dispatch succeed,
`run_ssh_command` returns the whitespace-stripped standard output and
reports success regardless of the standard-error content and the remote
exit status; a remote command that fails writing only to stderr therefore
yields the empty string, which `check_vm_upgrades` classifies as
`no_upgrades` (with the hedged message). -/
theorem c10_stderr_and_exit_status_ignored (home : String) (vmc : VMConfig)
    (out err err2 : String) (ec ec2 : Nat) (fields : List (String × String)) :
    run_ssh_command home vmc (.connected out err ec) = .ok (pyStrip out)
  ∧ run_ssh_command home vmc (.connected out err ec)
      = run_ssh_command home vmc (.connected out err2 ec2)
  ∧ check_vm_upgrades home (some (.obj fields)) (fun _ _ => .connected "" err ec) vmc
      = .ok { status := "no_upgrades", package_manager := "apt",
              details := "Apt update ran, but no explicit upgradable packages identified. Your system is likely up-to-date." } :=
  ⟨rfl, rfl, rfl⟩

end VMTool
